import Mathlib

/-!
Shallow embedding of the damped-springs library (src/src/lib.rs) over the
real numbers.  The Rust crate is generic over an IEEE floating-point type
`F: Float`; here the scalar type is `ℝ`, transcendental functions are
`Real.exp`, `Real.cos`, `Real.sin`, `Real.sqrt`, and the machine epsilon
`F::epsilon()` is an explicit parameter `eps`.  Fixed-size arrays `[T; N]`
are modelled as lists whose length plays the role of `N`.
-/

namespace DampedSprings

/-- Embeds `struct SpringConfig` (lib.rs lines 36-40): angular frequency and
damping ratio of a spring. -/
structure SpringConfig where
  angular_freq : ℝ
  damping_ratio : ℝ

/-- Embeds `SpringConfig::new` (lib.rs lines 44-49): clamps both parameters
to non-negative values via `Float::max` with zero. -/
def SpringConfig.new (angular_freq damping_ratio : ℝ) : SpringConfig :=
  { angular_freq := max angular_freq 0
    damping_ratio := max damping_ratio 0 }

/-- Embeds `enum SpringParams` (lib.rs lines 68-77): regime-tagged cached
coefficients. -/
inductive SpringParams where
  | Static : SpringParams
  | OverDamped (zb z1 z2 : ℝ) : SpringParams
  | CriticallyDamped (angular_freq : ℝ) : SpringParams
  | UnderDamped (oz a : ℝ) : SpringParams

/-- Discriminator for the `Static` variant. -/
def SpringParams.isStatic : SpringParams → Bool
  | .Static => true
  | _ => false

/-- Discriminator for the `OverDamped` variant. -/
def SpringParams.isOverDamped : SpringParams → Bool
  | .OverDamped _ _ _ => true
  | _ => false

/-- Discriminator for the `CriticallyDamped` variant. -/
def SpringParams.isCriticallyDamped : SpringParams → Bool
  | .CriticallyDamped _ => true
  | _ => false

/-- Discriminator for the `UnderDamped` variant. -/
def SpringParams.isUnderDamped : SpringParams → Bool
  | .UnderDamped _ _ => true
  | _ => false

/-- Embeds `impl From of SpringConfig for SpringParams` (lib.rs lines 79-109).
`eps` stands for `F::epsilon()` of the generic float type. -/
noncomputable def springParamsOfConfig (eps : ℝ) (c : SpringConfig) : SpringParams :=
  if c.angular_freq < eps then SpringParams.Static
  else if c.damping_ratio > 1 + eps then
    let za := -c.angular_freq * c.damping_ratio
    let zb := c.angular_freq * Real.sqrt (c.damping_ratio * c.damping_ratio - 1)
    SpringParams.OverDamped zb (za - zb) (za + zb)
  else if c.damping_ratio < 1 - eps then
    SpringParams.UnderDamped (c.angular_freq * c.damping_ratio)
      (c.angular_freq * Real.sqrt (1 - c.damping_ratio * c.damping_ratio))
  else
    SpringParams.CriticallyDamped c.angular_freq

/-- Embeds `struct SpringTimeStep` (lib.rs lines 136-142): the four entries
of the 2x2 state-transition matrix. -/
structure SpringTimeStep where
  pp : ℝ
  pv : ℝ
  vp : ℝ
  vv : ℝ

/-- Embeds `impl Default for SpringTimeStep` (lib.rs lines 144-153). -/
def SpringTimeStep.default : SpringTimeStep :=
  { pp := 1, pv := 0, vp := 0, vv := 1 }

/-- Embeds `SpringTimeStep::new` (lib.rs lines 157-213): the regime-specific
closed-form coefficients for a given delta time, translated arm by arm. -/
noncomputable def SpringTimeStep.new (state : SpringParams) (delta : ℝ) : SpringTimeStep :=
  match state with
  | SpringParams.Static => SpringTimeStep.default
  | SpringParams.OverDamped zb z1 z2 =>
      let e1 := Real.exp (z1 * delta)
      let e2 := Real.exp (z2 * delta)
      let inv_2zb := 1 / ((1 + 1) * zb)
      let e1_2zb := e1 * inv_2zb
      let e2_2zb := e2 * inv_2zb
      let z1e1_2zb := z1 * e1_2zb
      let z2e2_2zb := z2 * e2_2zb
      { pp := e1_2zb * z2 - z2e2_2zb + e2
        pv := -e1_2zb + e2_2zb
        vp := (z1e1_2zb - z2e2_2zb + e2) * z2
        vv := -z1e1_2zb + z2e2_2zb }
  | SpringParams.UnderDamped oz a =>
      let exp := Real.exp (-oz * delta)
      let cos := Real.cos (a * delta)
      let sin := Real.sin (a * delta)
      let inv_alpha := 1 / a
      let exp_sin := exp * sin
      let exp_cos := exp * cos
      let exp_ozs_alpha := exp * oz * sin * inv_alpha
      { pp := exp_cos + exp_ozs_alpha
        pv := exp_sin * inv_alpha
        vp := -exp_sin * a - oz * exp_ozs_alpha
        vv := exp_cos - exp_ozs_alpha }
  | SpringParams.CriticallyDamped angular_freq =>
      let exp := Real.exp (-angular_freq * delta)
      let time_exp := delta * exp
      let time_exp_freq := time_exp * angular_freq
      { pp := time_exp_freq * exp
        pv := time_exp
        vp := -angular_freq * time_exp_freq
        vv := -time_exp_freq * exp }

/-- Embeds `struct Spring` (lib.rs lines 227-231): position, velocity and
target equilibrium of a single spring instance. -/
structure Spring where
  position : ℝ
  velocity : ℝ
  equilibrium : ℝ

/-- Embeds `impl Default for Spring` (lib.rs lines 233-241). -/
def Spring.default : Spring :=
  { position := 0, velocity := 0, equilibrium := 0 }

/-- Embeds `Spring::from_equilibrium` (lib.rs lines 245-251). -/
def Spring.from_equilibrium (equilibrium : ℝ) : Spring :=
  { position := 0, velocity := 0, equilibrium := equilibrium }

/-- Embeds `Spring::update` (lib.rs lines 254-260): the mutation of the
spring is rendered as returning the updated value. -/
def Spring.update (s : Spring) (time_step : SpringTimeStep) : Spring :=
  let op := s.position - s.equilibrium
  let ov := s.velocity
  { position := op * time_step.pp + ov * time_step.pv + s.equilibrium
    velocity := op * time_step.vp + ov * time_step.vv
    equilibrium := s.equilibrium }

/-- Embeds `Spring::update_single` (lib.rs lines 269-271). -/
noncomputable def Spring.update_single (s : Spring) (state : SpringParams) (delta : ℝ) : Spring :=
  s.update (SpringTimeStep.new state delta)

/-- Embeds `struct SpringCollection` (lib.rs lines 277-280): the fixed-size
array `[Spring; N]` becomes a list whose length is the collection size `N`. -/
structure SpringCollection where
  params : SpringParams
  springs : List Spring

/-- Embeds `SpringCollection::update_with` (lib.rs lines 323-327): applies
the supplied time step to every slot in order. -/
def SpringCollection.update_with (c : SpringCollection) (time_step : SpringTimeStep) :
    SpringCollection :=
  { c with springs := c.springs.map (fun s => s.update time_step) }

/-- Embeds `SpringCollection::update` (lib.rs lines 314-316): derives a time
step from the stored params and delegates to `update_with`. -/
noncomputable def SpringCollection.update (c : SpringCollection) (delta : ℝ) : SpringCollection :=
  c.update_with (SpringTimeStep.new c.params delta)

/-- Error signals for the collection slot mutators: a Rust `self.springs[index]`
access with `index >= N` panics with an index-out-of-range error, and a bulk
mutator argument of the wrong shape is rejected (its Rust type is the
fixed-size array `[F; N]`, so the rejection happens at compile time). -/
inductive CollectionError where
  | IndexOutOfRange : CollectionError
  | InvalidLength : CollectionError

/-- Embeds the macro-generated `SpringCollection::set_position`
(lib.rs lines 341-343): `self.springs[index].position = position;`.
Rust indexing panics when `index >= N`; the panic is modelled as the
explicit error `IndexOutOfRange`. -/
def SpringCollection.set_position (c : SpringCollection) (index : ℕ) (position : ℝ) :
    Except CollectionError SpringCollection :=
  if h : index < c.springs.length then
    Except.ok { c with
      springs := c.springs.set index { c.springs.get ⟨index, h⟩ with position := position } }
  else
    Except.error CollectionError.IndexOutOfRange

/-- Embeds the macro-generated `SpringCollection::set_velocity`
(lib.rs lines 341-343 for the velocity property).  Indexing out of range
panics, modelled as `IndexOutOfRange`. -/
def SpringCollection.set_velocity (c : SpringCollection) (index : ℕ) (velocity : ℝ) :
    Except CollectionError SpringCollection :=
  if h : index < c.springs.length then
    Except.ok { c with
      springs := c.springs.set index { c.springs.get ⟨index, h⟩ with velocity := velocity } }
  else
    Except.error CollectionError.IndexOutOfRange

/-- Embeds the macro-generated `SpringCollection::set_equilibrium`
(lib.rs lines 341-343 for the equilibrium property).  Indexing out of range
panics, modelled as `IndexOutOfRange`. -/
def SpringCollection.set_equilibrium (c : SpringCollection) (index : ℕ) (equilibrium : ℝ) :
    Except CollectionError SpringCollection :=
  if h : index < c.springs.length then
    Except.ok { c with
      springs := c.springs.set index { c.springs.get ⟨index, h⟩ with equilibrium := equilibrium } }
  else
    Except.error CollectionError.IndexOutOfRange

/-- Embeds the macro-generated `SpringCollection::set_positions`
(lib.rs lines 347-351).  The Rust argument type is the fixed-size array
`[F; N]`, so a caller can never pass a sequence whose length differs from
the collection size: that shape check, performed by the compiler, is
rendered here as the runtime guard returning `InvalidLength`.  The body on
equal lengths is the source zip loop. -/
def SpringCollection.set_positions (c : SpringCollection) (positions : List ℝ) :
    Except CollectionError SpringCollection :=
  if positions.length = c.springs.length then
    Except.ok { c with
      springs := (c.springs.zip positions).map (fun sp => { sp.1 with position := sp.2 }) }
  else
    Except.error CollectionError.InvalidLength

/-- Embeds the macro-generated `SpringCollection::set_velocities`
(lib.rs lines 347-351 for the velocity property); length guard as in
`set_positions`. -/
def SpringCollection.set_velocities (c : SpringCollection) (velocities : List ℝ) :
    Except CollectionError SpringCollection :=
  if velocities.length = c.springs.length then
    Except.ok { c with
      springs := (c.springs.zip velocities).map (fun sp => { sp.1 with velocity := sp.2 }) }
  else
    Except.error CollectionError.InvalidLength

/-- Embeds the macro-generated `SpringCollection::set_equilibriums`
(lib.rs lines 347-351 for the equilibrium property); length guard as in
`set_positions`. -/
def SpringCollection.set_equilibriums (c : SpringCollection) (equilibriums : List ℝ) :
    Except CollectionError SpringCollection :=
  if equilibriums.length = c.springs.length then
    Except.ok { c with
      springs := (c.springs.zip equilibriums).map (fun sp => { sp.1 with equilibrium := sp.2 }) }
  else
    Except.error CollectionError.InvalidLength

/-- A scalar of the generic IEEE float type for the NaN analysis: `none` is
NaN, `some x` an ordinary value. -/
def FloatScalar : Type := Option ℝ

/-- Models `Float::max` of the `num_traits` crate as implemented by Rust
`f32::max` and `f64::max` (IEEE-754 maxNum): if exactly one operand is NaN,
the other operand is returned; on ordinary values it is the usual maximum. -/
def floatMax (x y : FloatScalar) : FloatScalar :=
  match x, y with
  | none, b => b
  | some a, none => some a
  | some a, some b => some (max a b)

/-- `SpringConfig::new` evaluated on possibly-NaN inputs: each field stores
`input.max(0.0)` exactly as in lib.rs lines 44-49, with `Float::max`
interpreted by `floatMax`. -/
def springConfigNewFloat (angular_freq damping_ratio : FloatScalar) :
    FloatScalar × FloatScalar :=
  (floatMax angular_freq (some 0), floatMax damping_ratio (some 0))

end DampedSprings

namespace DampedSprings

/-- Helper: the Static arm of `SpringTimeStep::new` returns the default
coefficients for every delta. -/
theorem new_static_eq_default (delta : ℝ) :
    SpringTimeStep.new SpringParams.Static delta = SpringTimeStep.default := rfl

/-- Helper: updating any spring with the default coefficients leaves it
unchanged. -/
theorem update_default_eq_self (s : Spring) : s.update SpringTimeStep.default = s := by
  unfold Spring.update SpringTimeStep.default
  cases s with
  | mk p v e => simp

/-- C8: SpringConfig::new stores the max of each input with zero, so both
stored fields are nonnegative, negative inputs are floored to zero with no
error path, and the accessors angular_freq and damping_ratio return exactly
the stored clamped values. -/
theorem config_new_clamps (a d : ℝ) :
    0 ≤ (SpringConfig.new a d).angular_freq ∧
    0 ≤ (SpringConfig.new a d).damping_ratio ∧
    (SpringConfig.new a d).angular_freq = max a 0 ∧
    (SpringConfig.new a d).damping_ratio = max d 0 ∧
    (a < 0 → (SpringConfig.new a d).angular_freq = 0) ∧
    (d < 0 → (SpringConfig.new a d).damping_ratio = 0) ∧
    (0 ≤ a → (SpringConfig.new a d).angular_freq = a) ∧
    (0 ≤ d → (SpringConfig.new a d).damping_ratio = d) := by
  unfold SpringConfig.new
  refine ⟨le_max_right a 0, le_max_right d 0, rfl, rfl, ?_, ?_, ?_, ?_⟩
  · intro h; exact max_eq_right h.le
  · intro h; exact max_eq_right h.le
  · intro h; exact max_eq_left h
  · intro h; exact max_eq_left h

/-- C8 witness: instantiation at a = -3, d = 2. -/
theorem config_new_clamps_witness :
    (-3 : ℝ) < 0 ∧ (0:ℝ) ≤ 2 ∧
    (SpringConfig.new (-3) 2).angular_freq = 0 ∧
    (SpringConfig.new (-3) 2).damping_ratio = 2 := by
  refine ⟨by norm_num, by norm_num, ?_, ?_⟩
  · exact (config_new_clamps (-3) 2).2.2.2.2.1 (by norm_num)
  · exact (config_new_clamps (-3) 2).2.2.2.2.2.2.2 (by norm_num)

/-- C6: Spring::update is exactly the linear map on the offset
x = position - equilibrium and velocity v: new position is
x*pp + v*pv + equilibrium, new velocity is x*vp + v*vv, and the
equilibrium field is unchanged. -/
theorem update_is_linear_map (s : Spring) (t : SpringTimeStep) :
    (s.update t).position =
      (s.position - s.equilibrium) * t.pp + s.velocity * t.pv + s.equilibrium ∧
    (s.update t).velocity =
      (s.position - s.equilibrium) * t.vp + s.velocity * t.vv ∧
    (s.update t).equilibrium = s.equilibrium :=
  ⟨rfl, rfl, rfl⟩

/-- C5: the Static arm of SpringTimeStep::new returns the identity-like
default coefficients pp = 1, pv = 0, vp = 0, vv = 1 for every delta, and
updating any spring with them leaves position and velocity unchanged. -/
theorem static_step_is_identity (delta : ℝ) (s : Spring) :
    SpringTimeStep.new SpringParams.Static delta = SpringTimeStep.default ∧
    SpringTimeStep.default.pp = 1 ∧ SpringTimeStep.default.pv = 0 ∧
    SpringTimeStep.default.vp = 0 ∧ SpringTimeStep.default.vv = 1 ∧
    s.update (SpringTimeStep.new SpringParams.Static delta) = s := by
  refine ⟨rfl, rfl, rfl, rfl, rfl, ?_⟩
  rw [new_static_eq_default]
  exact update_default_eq_self s

/-- C7: Spring::update_single equals deriving the time step and then calling
Spring::update; SpringCollection::update equals deriving the time step once
from the stored params and mapping Spring::update over the slots in order,
each slot depending only on its own prior state; the stored params are
unchanged. -/
theorem convenience_paths_agree (s : Spring) (params : SpringParams) (delta : ℝ)
    (c : SpringCollection) :
    s.update_single params delta = s.update (SpringTimeStep.new params delta) ∧
    (c.update delta).params = c.params ∧
    (c.update delta).springs =
      c.springs.map (fun sp => sp.update (SpringTimeStep.new c.params delta)) ∧
    ∀ i : ℕ, ((c.update delta).springs)[i]? =
      Option.map (fun sp => sp.update (SpringTimeStep.new c.params delta)) (c.springs)[i]? := by
  refine ⟨rfl, rfl, rfl, ?_⟩
  intro i
  show (c.springs.map (fun sp => sp.update (SpringTimeStep.new c.params delta)))[i]? = _
  exact List.getElem?_map _ _ _

/-- C3: the Config to SpringParams conversion selects exactly one variant by
the three-way epsilon comparison: Static iff angular_freq < eps; otherwise
OverDamped iff damping_ratio > 1 + eps; otherwise UnderDamped iff
damping_ratio < 1 - eps; otherwise CriticallyDamped, so ties at the
boundaries favor CriticallyDamped; exactly one discriminator is set. -/
theorem classification_partition (eps : ℝ) (c : SpringConfig) :
    (springParamsOfConfig eps c = SpringParams.Static ↔ c.angular_freq < eps) ∧
    (¬ c.angular_freq < eps →
      ((springParamsOfConfig eps c).isOverDamped = true ↔ c.damping_ratio > 1 + eps)) ∧
    (¬ c.angular_freq < eps → ¬ c.damping_ratio > 1 + eps →
      ((springParamsOfConfig eps c).isUnderDamped = true ↔ c.damping_ratio < 1 - eps)) ∧
    (¬ c.angular_freq < eps → ¬ c.damping_ratio > 1 + eps → ¬ c.damping_ratio < 1 - eps →
      (springParamsOfConfig eps c).isCriticallyDamped = true) ∧
    ((springParamsOfConfig eps c).isStatic.toNat +
      (springParamsOfConfig eps c).isOverDamped.toNat +
      (springParamsOfConfig eps c).isCriticallyDamped.toNat +
      (springParamsOfConfig eps c).isUnderDamped.toNat = 1) := by
  unfold springParamsOfConfig
  split_ifs with h1 h2 h3 <;>
    simp_all [SpringParams.isStatic, SpringParams.isOverDamped,
      SpringParams.isCriticallyDamped, SpringParams.isUnderDamped]

/-- C3 witness: eps = 1/2 and the config with angular_freq = 2,
damping_ratio = 3 is classified OverDamped. -/
theorem classification_partition_witness :
    ¬ ((2:ℝ) < 1/2) ∧ ((3:ℝ) > 1 + 1/2) ∧
    (springParamsOfConfig (1/2) { angular_freq := 2, damping_ratio := 3 }).isOverDamped
      = true := by
  refine ⟨by norm_num, by norm_num, ?_⟩
  exact ((classification_partition (1/2)
    { angular_freq := 2, damping_ratio := 3 }).2.1 (by norm_num)).mpr (by norm_num)

/-- C4: for every config built by SpringConfig::new and every positive
machine epsilon, when the conversion yields OverDamped the divisor seed zb
is strictly positive, and when it yields UnderDamped the divisor a is
strictly positive, so the divisions 1/(2*zb) and 1/a in SpringTimeStep::new
are never divisions by zero; the derivation itself is total by
construction. -/
theorem derived_params_divisors_pos (eps af dr : ℝ) (heps : 0 < eps) :
    (∀ zb z1 z2,
      springParamsOfConfig eps (SpringConfig.new af dr) = SpringParams.OverDamped zb z1 z2 →
        0 < zb) ∧
    (∀ oz a,
      springParamsOfConfig eps (SpringConfig.new af dr) = SpringParams.UnderDamped oz a →
        0 < a) := by
  constructor
  · intro zb z1 z2 h
    simp only [springParamsOfConfig, SpringConfig.new] at h
    split_ifs at h with h1 h2 h3
    obtain ⟨rfl, -, -⟩ := h
    have hf : 0 < max af 0 := lt_of_lt_of_le heps (not_lt.mp h1)
    have hm1 : 1 < max dr 0 := by linarith [h2]
    have hd : 0 < max dr 0 * max dr 0 - 1 := by
      nlinarith [mul_pos (sub_pos.mpr hm1) (by linarith : (0:ℝ) < max dr 0 + 1)]
    exact mul_pos hf (Real.sqrt_pos.mpr hd)
  · intro oz a h
    simp only [springParamsOfConfig, SpringConfig.new] at h
    split_ifs at h with h1 h2 h3
    obtain ⟨-, rfl⟩ := h
    have hf : 0 < max af 0 := lt_of_lt_of_le heps (not_lt.mp h1)
    have hd0 : (0:ℝ) ≤ max dr 0 := le_max_right dr 0
    have hm1 : max dr 0 < 1 := by linarith [h3]
    have hd : 0 < 1 - max dr 0 * max dr 0 := by
      nlinarith [mul_pos (sub_pos.mpr hm1) (by linarith : (0:ℝ) < 1 + max dr 0)]
    exact mul_pos hf (Real.sqrt_pos.mpr hd)

/-- C4 witness: eps = 1/2, config new(1, 2) is OverDamped with
zb = sqrt 3 > 0. -/
theorem derived_params_divisors_pos_witness :
    (0:ℝ) < 1/2 ∧ 0 < Real.sqrt 3 := by
  refine ⟨by norm_num, ?_⟩
  have hc : springParamsOfConfig (1/2) (SpringConfig.new 1 2) =
      SpringParams.OverDamped (Real.sqrt 3) (-2 - Real.sqrt 3) (-2 + Real.sqrt 3) := by
    simp only [springParamsOfConfig, SpringConfig.new]
    norm_num
  exact (derived_params_divisors_pos (1/2) 1 2 (by norm_num)).1 _ _ _ hc

/-- C1: at the critically damped input angular_freq = 1, delta = 0 the code
returns the all-zero coefficient record, while the repeated-root closed form
stated by the claim evaluates to pp = 1, pv = 0, vp = 0, vv = 1 there: the
CriticallyDamped arm computes pp = w*d*exp(-2*w*d) and
vv = -w*d*exp(-2*w*d) (multiplying time_exp_freq by exp) instead of the
repeated-root values (1 + w*d)*exp(-w*d) and (1 - w*d)*exp(-w*d). -/
theorem critically_damped_code_bug :
    SpringTimeStep.new (SpringParams.CriticallyDamped 1) 0 =
      { pp := 0, pv := 0, vp := 0, vv := 0 } ∧
    (1 + 1 * 0) * Real.exp (-(1 * 0)) = 1 ∧
    (0:ℝ) * Real.exp (-(1 * 0)) = 0 ∧
    (-(1 * 1 * 0)) * Real.exp (-(1 * 0)) = 0 ∧
    (1 - 1 * 0) * Real.exp (-(1 * 0)) = 1 := by
  refine ⟨?_, by simp, by simp, by simp, by simp⟩
  simp [SpringTimeStep.new]

/-- C2: at delta = 0 the OverDamped arm (on the reachable parameters
zb = 1, z1 = -3, z2 = -1) and the UnderDamped arm (oz = 1, a = 1) both
return the identity-like coefficients pp = 1, pv = 0, vp = 0, vv = 1, but
the CriticallyDamped arm returns pp = 0 rather than a value near 1. -/
theorem zero_delta_code_bug :
    SpringTimeStep.new (SpringParams.OverDamped 1 (-3) (-1)) 0 =
      { pp := 1, pv := 0, vp := 0, vv := 1 } ∧
    SpringTimeStep.new (SpringParams.UnderDamped 1 1) 0 =
      { pp := 1, pv := 0, vp := 0, vv := 1 } ∧
    (SpringTimeStep.new (SpringParams.CriticallyDamped 1) 0).pp = 0 := by
  refine ⟨?_, ?_, ?_⟩
  · simp [SpringTimeStep.new]
    norm_num
  · simp [SpringTimeStep.new]
  · simp [SpringTimeStep.new]

/-- C9: every per-slot setter called with an index at or past the collection
size returns the IndexOutOfRange error, and every bulk setter whose input
length differs from the collection size returns the InvalidLength error; in
both cases no updated collection is produced, so no slot is mutated. -/
theorem collection_mutators_fail_cleanly (c : SpringCollection) (i : ℕ) (x : ℝ)
    (xs : List ℝ) (hi : c.springs.length ≤ i) (hxs : xs.length ≠ c.springs.length) :
    c.set_position i x = Except.error CollectionError.IndexOutOfRange ∧
    c.set_velocity i x = Except.error CollectionError.IndexOutOfRange ∧
    c.set_equilibrium i x = Except.error CollectionError.IndexOutOfRange ∧
    c.set_positions xs = Except.error CollectionError.InvalidLength ∧
    c.set_velocities xs = Except.error CollectionError.InvalidLength ∧
    c.set_equilibriums xs = Except.error CollectionError.InvalidLength := by
  have hni : ¬ i < c.springs.length := not_lt.mpr hi
  refine ⟨?_, ?_, ?_, ?_, ?_, ?_⟩
  · exact dif_neg hni
  · exact dif_neg hni
  · exact dif_neg hni
  · exact if_neg hxs
  · exact if_neg hxs
  · exact if_neg hxs

/-- C9 witness: the spec scenario, a 2-slot collection with a 3-element bulk
input, and a slot setter at index 5. -/
theorem collection_mutators_fail_cleanly_witness :
    (SpringCollection.mk SpringParams.Static
        [Spring.default, Spring.default]).springs.length ≤ 5 ∧
    ([(1:ℝ), 2, 3].length ≠
      (SpringCollection.mk SpringParams.Static
        [Spring.default, Spring.default]).springs.length) ∧
    (SpringCollection.mk SpringParams.Static
        [Spring.default, Spring.default]).set_positions [(1:ℝ), 2, 3] =
      Except.error CollectionError.InvalidLength ∧
    (SpringCollection.mk SpringParams.Static
        [Spring.default, Spring.default]).set_position 5 1 =
      Except.error CollectionError.IndexOutOfRange := by
  refine ⟨by simp, by simp, ?_, ?_⟩
  · exact (collection_mutators_fail_cleanly
      (SpringCollection.mk SpringParams.Static [Spring.default, Spring.default])
      5 1 [(1:ℝ), 2, 3] (by simp) (by simp)).2.2.2.1
  · exact (collection_mutators_fail_cleanly
      (SpringCollection.mk SpringParams.Static [Spring.default, Spring.default])
      5 1 [(1:ℝ), 2, 3] (by simp) (by simp)).1

/-- C10: a NaN argument to SpringConfig::new is absorbed by Float::max with
zero, storing exactly zero in the corresponding field; a config whose
angular_freq is zero classifies as Static for any positive epsilon, and
updating any spring with the Static time step leaves it unchanged, so NaN
is silently absorbed rather than propagated. -/
theorem nan_inputs_absorbed (eps dr x : ℝ) (heps : 0 < eps) :
    (springConfigNewFloat none (some x)).1 = some 0 ∧
    (springConfigNewFloat (some x) none).2 = some 0 ∧
    springConfigNewFloat none none = (some 0, some 0) ∧
    springParamsOfConfig eps { angular_freq := 0, damping_ratio := dr } =
      SpringParams.Static ∧
    (∀ (s : Spring) (delta : ℝ),
      s.update (SpringTimeStep.new SpringParams.Static delta) = s) := by
  refine ⟨rfl, rfl, rfl, ?_, ?_⟩
  · unfold springParamsOfConfig
    rw [if_pos]
    exact heps
  · intro s delta
    rw [new_static_eq_default]
    exact update_default_eq_self s

/-- C10 witness: eps = 1, damping_ratio = 2, ordinary argument 5, and a
concrete spring. -/
theorem nan_inputs_absorbed_witness :
    (0:ℝ) < 1 ∧
    (springConfigNewFloat none (some 5)).1 = some 0 ∧
    springParamsOfConfig 1 { angular_freq := 0, damping_ratio := 2 } =
      SpringParams.Static ∧
    (Spring.mk 3 4 7).update (SpringTimeStep.new SpringParams.Static 9) =
      Spring.mk 3 4 7 := by
  have h := nan_inputs_absorbed 1 2 5 (by norm_num)
  exact ⟨by norm_num, h.1, h.2.2.2.1, h.2.2.2.2 (Spring.mk 3 4 7) 9⟩

end DampedSprings
